import Mathlib

/-!
Shallow embedding of the authentication/session core of the
sitecore-ordercloud-mcp repository.

Embedded source parts:
* `OrderCloudAuth` (the TokenAuthority): `setCredentials`, `authenticate`,
  `isAuthenticated`, `clearAuth`, token-expiry arithmetic.
* `OrderCloudClient.makeRequest` (the RequestDispatcher): the retry loop
  with exponential backoff, error-message construction from the response
  body, and substring-based client-error classification.
* The composite `OrderCloudClient` built over per-resource facades
  (`BaseClient.setAccessToken` / `ensureAuthenticated`) with the patched
  `auth.authenticate` that propagates a fresh token to every facade.

Time is modelled as integer milliseconds since the epoch (the JS
`Date.now()` value); network interaction is modelled by passing the
outcome the network would produce as an explicit argument, together
with a count of network calls actually consumed.
-/

namespace OrderCloudMCP

/-! ## TokenAuthority: `OrderCloudAuth` (src/unnamed/part_000) -/

structure OrderCloudCredentials where
  username : String
  password : String
  clientId : String
  scope : Option (List String)
deriving Repr, DecidableEq

structure OrderCloudToken where
  access_token : String
  token_type : String
  expires_in : Int
  refresh_token : Option String
deriving Repr, DecidableEq

structure OrderCloudAuthResponse where
  access_token : String
  token_type : String
  expires_in : Int
  refresh_token : Option String
deriving Repr, DecidableEq

/-- The mutable fields of the `OrderCloudAuth` class. -/
structure AuthState where
  baseUrl : String
  credentials : Option OrderCloudCredentials
  token : Option OrderCloudToken
  tokenExpiry : Option Int
deriving Repr, DecidableEq

/-- `setCredentials(credentials)`: `this.credentials = credentials` and
nothing else (part_000 lines 32-34). -/
def setCredentials (s : AuthState) (c : OrderCloudCredentials) : AuthState :=
  { s with credentials := some c }

/-- `clearAuth()`: `this.token = null; this.tokenExpiry = null`
(part_000 lines 98-101). -/
def clearAuth (s : AuthState) : AuthState :=
  { s with token := none, tokenExpiry := none }

/-- The freshness test `this.token && this.tokenExpiry && new Date() < this.tokenExpiry`
used on the fast path of `authenticate` (part_000 line 42). -/
def tokenFresh (s : AuthState) (now : Int) : Bool :=
  match s.token, s.tokenExpiry with
  | some _, some e => decide (now < e)
  | _, _ => false

/-- `isAuthenticated()` (part_000 lines 94-96):
`this.token !== null && this.tokenExpiry !== null && new Date() < this.tokenExpiry`. -/
def isAuthenticated (s : AuthState) (now : Int) : Bool :=
  match s.token, s.tokenExpiry with
  | some _, some e => decide (now < e)
  | _, _ => false

/-- What the `fetch` of the token endpoint produces, seen from `authenticate`:
a parsed success JSON, a non-ok response with its status and raw body text,
or a transport-level exception carrying a message. -/
inductive TokenHttpResult where
  | ok (resp : OrderCloudAuthResponse)
  | httpError (status : Nat) (bodyText : String)
  | transportError (msg : String)
deriving Repr, DecidableEq

/-- Result of one `authenticate()` call: the returned token string or the
thrown error message, the updated object state, and how many network calls
were made. -/
structure AuthOutcome where
  result : Except String String
  state : AuthState
  networkCalls : Nat
deriving Repr

/-- The slow path of `authenticate` (part_000 lines 46-83): perform the
token exchange; on success store the token and
`tokenExpiry = Date.now() + (expires_in - 300) * 1000`; a non-ok response
throws `Authentication failed: <status> <body>` which the surrounding catch
rewraps, as it rewraps any transport exception, into
`Failed to authenticate with OrderCloud: <message>`. -/
def doTokenExchange (s : AuthState) (now : Int) (net : TokenHttpResult) : AuthOutcome :=
  match net with
  | .ok resp =>
      ⟨.ok resp.access_token,
       { s with
          token := some ⟨resp.access_token, resp.token_type, resp.expires_in, resp.refresh_token⟩,
          tokenExpiry := some (now + (resp.expires_in - 300) * 1000) },
       1⟩
  | .httpError status bodyText =>
      ⟨.error ("Failed to authenticate with OrderCloud: Authentication failed: "
                ++ toString status ++ " " ++ bodyText), s, 1⟩
  | .transportError msg =>
      ⟨.error ("Failed to authenticate with OrderCloud: " ++ msg), s, 1⟩

/-- `authenticate()` (part_000 lines 36-84): fail if credentials were never
set; return the cached token with no network call while it is still fresh;
otherwise perform the exchange. -/
def authenticate (s : AuthState) (now : Int) (net : TokenHttpResult) : AuthOutcome :=
  match s.credentials with
  | none => ⟨.error "Credentials not set. Call setCredentials() first.", s, 0⟩
  | some _ =>
      match s.token, s.tokenExpiry with
      | some tok, some e =>
          if now < e then ⟨.ok tok.access_token, s, 0⟩
          else doTokenExchange s now net
      | _, _ => doTokenExchange s now net

/-! ## Substring search (the JS `String.prototype.includes`) -/

/-- `leadsWith s pat` is true when `pat` is an initial segment of `s`. -/
def leadsWith : List Char → List Char → Bool
  | _, [] => true
  | [], _ :: _ => false
  | a :: as, b :: bs => a == b && leadsWith as bs

/-- `containsSeq s pat` is true when `pat` occurs contiguously inside `s`. -/
def containsSeq : List Char → List Char → Bool
  | [], pat => pat.isEmpty
  | c :: rest, pat => leadsWith (c :: rest) pat || containsSeq rest pat

/-- The JS `message.includes(pat)` substring test. -/
def strContains (s pat : String) : Bool :=
  containsSeq s.data pat.data

/-! ## RequestDispatcher: `OrderCloudClient.makeRequest` (src/unnamed/part_001) -/

/-- One entry of the OrderCloud error body `Errors` array. -/
structure OrderCloudApiError where
  ErrorCode : String
  Message : String
deriving Repr, DecidableEq

/-- The JSON shape `makeRequest` looks for in a failed response body:
an optional `Errors` array and an optional top-level `Message` field. -/
structure ParsedErrorBody where
  Errors : Option (List OrderCloudApiError)
  Message : Option String
deriving Repr, DecidableEq

/-- Error-message construction of part_001 lines 174-188: start from
`HTTP <status>: <statusText>`; if the body parses as JSON with an `Errors`
array, join its entries as `<ErrorCode>: <Message>` with `, `; else use a
truthy (non-empty) top-level `Message`; else keep the default.
`body = none` models a body that failed to parse as JSON. -/
def buildErrorMessage (status : Nat) (statusText : String) (body : Option ParsedErrorBody) : String :=
  match body with
  | none => "HTTP " ++ toString status ++ ": " ++ statusText
  | some b =>
      match b.Errors with
      | some errs => String.intercalate ", " (errs.map (fun e => e.ErrorCode ++ ": " ++ e.Message))
      | none =>
          match b.Message with
          | some m => if m = "" then "HTTP " ++ toString status ++ ": " ++ statusText else m
          | none => "HTTP " ++ toString status ++ ": " ++ statusText

/-- What one iteration of the `makeRequest` loop observes: a 2xx response
with its decoded payload, a non-ok response (status, status text, parsed
error body), or an exception thrown before a response was obtained
(auth failure or network error). -/
inductive AttemptOutcome where
  | success (payload : String)
  | httpFailure (status : Nat) (statusText : String) (body : Option ParsedErrorBody)
  | thrown (msg : String)
deriving Repr, DecidableEq

/-- The message of the error captured by the `catch` for a failed attempt:
a non-ok response throws `OrderCloud API error: <built message>`
(part_001 line 190), an earlier exception keeps its own message. -/
def errMsgOf : AttemptOutcome → String
  | .success _ => ""
  | .httpFailure status statusText body =>
      "OrderCloud API error: " ++ buildErrorMessage status statusText body
  | .thrown m => m

/-- The classification of part_001 lines 198-205: the captured message is
searched for the substrings "401", "403", "400", "404"; a hit means the
error is rethrown at once with no retry. -/
def isClientErrorMsg (m : String) : Bool :=
  strContains m "401" || strContains m "403" || strContains m "400" || strContains m "404"

/-- Observable result of `makeRequest`: the returned payload or thrown
message, the number of HTTP attempts performed and the backoff sleeps
(in ms, in order) between consecutive attempts. -/
structure RequestResult where
  result : Except String String
  attempts : Nat
  sleeps : List Nat
deriving Repr

/-- The attempt loop of part_001 lines 162-214, with `a` the current value
of `attempt` and the fuel argument the number of retries still allowed
(`retryAttempts - attempt`, so fuel `0` means `attempt = retryAttempts`).
A successful attempt returns its payload; a failed attempt rethrows at once
when its message classifies as a client error; otherwise, when retries
remain, the loop sleeps `retryDelay * 2 ^ attempt` ms and retries, else the
last captured error is thrown after the loop. -/
def makeRequestGo (d : Nat) (outcomes : Nat → AttemptOutcome) (a : Nat) : Nat → RequestResult
  | 0 =>
      match outcomes a with
      | .success p => ⟨.ok p, 1, []⟩
      | o => ⟨.error (errMsgOf o), 1, []⟩
  | rem + 1 =>
      match outcomes a with
      | .success p => ⟨.ok p, 1, []⟩
      | o =>
          if isClientErrorMsg (errMsgOf o) then ⟨.error (errMsgOf o), 1, []⟩
          else
            let rest := makeRequestGo d outcomes (a + 1) rem
            ⟨rest.result, rest.attempts + 1, d * 2 ^ a :: rest.sleeps⟩

/-- `makeRequest` with configuration `retryAttempts` (`this.retryAttempts`,
default 3) and `retryDelay` (`this.retryDelay`, default 1000 ms);
`outcomes k` is what attempt number `k` would observe if performed. -/
def makeRequest (retryAttempts retryDelay : Nat) (outcomes : Nat → AttemptOutcome) : RequestResult :=
  makeRequestGo retryDelay outcomes 0 retryAttempts

/-- A failed attempt that the loop's classification retries: not a success,
and its captured message has none of the client-error substrings. -/
def retryableFailure (o : AttemptOutcome) : Bool :=
  match o with
  | .success _ => false
  | _ => !(isClientErrorMsg (errMsgOf o))

/-! ## Facade token propagation (src/unnamed/part_004 lines 434-481) and
`BaseClient` (src/src/tools/clients/base-client.ts) -/

/-- The access-token slots of the composite client's sub-clients: the
`AuthClient` plus the eight resource facades, each a `BaseClient` holding
`accessToken : string | null`. -/
structure Facades where
  auth : Option String
  catalogs : Option String
  products : Option String
  categories : Option String
  promotions : Option String
  buyers : Option String
  suppliers : Option String
  priceSchedules : Option String
  addresses : Option String
deriving Repr, DecidableEq

/-- The `setToken` closure of the composite constructor (part_004 lines
452-462): push one token to every resource facade via
`BaseClient.setAccessToken`. -/
def setToken (f : Facades) (t : String) : Facades :=
  { f with
      catalogs := some t, products := some t, categories := some t,
      promotions := some t, buyers := some t, suppliers := some t,
      priceSchedules := some t, addresses := some t }

/-- The patched `auth.authenticate` (part_004 lines 464-475): run the
original `AuthClient.authenticate` (which on success stores the token in
the auth client itself) and, on success, broadcast the fresh
`access_token` to every facade; on failure facades are untouched. -/
def compositeAuthenticate (f : Facades) (net : Except String String) :
    Except String String × Facades :=
  match net with
  | .error e => (.error e, f)
  | .ok tok => (.ok tok, setToken { f with auth := some tok } tok)

/-- JS truthiness of `this.accessToken` in `ensureAuthenticated`:
`null` and the empty string are falsy. -/
def jsTruthy : Option String → Bool
  | none => false
  | some s => !(s == "")

/-- `BaseClient.ensureAuthenticated` (base-client.ts lines 22-26, and the
identical guard of the monolithic client in part_004 lines 552-556):
throw unless `this.accessToken` is truthy. The guard reads nothing but the
token slot — no expiry information exists in the facade at all. -/
def ensureAuthenticated (accessToken : Option String) : Except String Unit :=
  if jsTruthy accessToken then .ok ()
  else .error "Not authenticated. Please call authenticate() first."

/-! ## Spec-modelled definition used to settle claim C7 -/

/-- Modelled from the spec: the missing best-effort message extraction the
spec prescribes for a failed token-endpoint response ("JSON
`error_description`/`Message` field, else raw body, else status text").
The source's `OrderCloudAuth.authenticate` has no such extraction — it
embeds the raw body text unconditionally — so this definition follows the
spec's words, to be compared with the code's message. -/
def specAuthMsgPart (errorDescription message : Option String)
    (rawBody statusText : String) : String :=
  match errorDescription with
  | some d => d
  | none =>
      match message with
      | some m => m
      | none => if rawBody = "" then statusText else rawBody

/-! ## Concrete values used by counterexamples and witnesses -/

def cred0 : OrderCloudCredentials := ⟨"u0", "p0", "c0", none⟩

def cred1 : OrderCloudCredentials := ⟨"u1", "p1", "c1", some ["FullAccess"]⟩

def tok0 : OrderCloudToken := ⟨"oldTok", "bearer", 600, none⟩

/-- A state holding credentials and a cached token valid until t = 1000000 ms. -/
def s0 : AuthState := ⟨"https://sandboxapi.ordercloud.io", some cred0, some tok0, some 1000000⟩

/-- A state with credentials set and no cached token. -/
def sCred : AuthState := ⟨"https://sandboxapi.ordercloud.io", some cred0, none, none⟩

/-- A state where credentials were never set. -/
def sNoCred : AuthState := ⟨"https://sandboxapi.ordercloud.io", none, none, none⟩

def resp1 : OrderCloudAuthResponse := ⟨"newTok", "bearer", 3600, none⟩

def resp600 : OrderCloudAuthResponse := ⟨"tok600", "bearer", 600, none⟩

/-- The scenario error body of claim C6. -/
def c6Body : ParsedErrorBody := ⟨some [⟨"InvalidField", "Name required"⟩], none⟩

def c6Outcomes : Nat → AttemptOutcome := fun _ => .httpFailure 400 "Bad Request" (some c6Body)

/-! ## Helper lemmas -/

theorem doTokenExchange_networkCalls (s : AuthState) (now : Int) (net : TokenHttpResult) :
    (doTokenExchange s now net).networkCalls = 1 := by
  cases net <;> rfl

theorem doTokenExchange_credentials (s : AuthState) (now : Int) (net : TokenHttpResult) :
    (doTokenExchange s now net).state.credentials = s.credentials := by
  cases net <;> rfl

theorem authenticate_of_not_fresh (s : AuthState) (c : OrderCloudCredentials) (now : Int)
    (net : TokenHttpResult) (hc : s.credentials = some c) (hf : tokenFresh s now = false) :
    authenticate s now net = doTokenExchange s now net := by
  unfold authenticate
  rw [hc]
  unfold tokenFresh at hf
  cases ht : s.token with
  | none => cases he : s.tokenExpiry <;> simp
  | some tok =>
      cases he : s.tokenExpiry with
      | none => simp
      | some e =>
          rw [ht, he] at hf
          simp only [decide_eq_false_iff_not] at hf
          simp [hf]

theorem authenticate_fast_path (s : AuthState) (c : OrderCloudCredentials)
    (tok : OrderCloudToken) (e now : Int) (net : TokenHttpResult)
    (hc : s.credentials = some c) (ht : s.token = some tok) (he : s.tokenExpiry = some e)
    (hlt : now < e) :
    authenticate s now net = ⟨.ok tok.access_token, s, 0⟩ := by
  unfold authenticate
  rw [hc, ht, he]
  simp [hlt]

theorem leadsWith_append (s pat ys : List Char) (h : leadsWith s pat = true) :
    leadsWith (s ++ ys) pat = true := by
  induction pat generalizing s with
  | nil => simp [leadsWith]
  | cons b bs ih =>
      cases s with
      | nil => simp [leadsWith] at h
      | cons a as =>
          simp only [leadsWith, Bool.and_eq_true] at h
          simp only [List.cons_append, leadsWith, Bool.and_eq_true]
          exact ⟨h.1, ih as h.2⟩

theorem containsSeq_nil_pat (s : List Char) : containsSeq s [] = true := by
  cases s with
  | nil => rfl
  | cons c rest => simp [containsSeq, leadsWith]

theorem containsSeq_append_left (xs ys pat : List Char) (h : containsSeq xs pat = true) :
    containsSeq (xs ++ ys) pat = true := by
  induction xs with
  | nil =>
      simp only [containsSeq] at h
      cases pat with
      | nil => exact containsSeq_nil_pat ys
      | cons b bs => simp [List.isEmpty] at h
  | cons a as ih =>
      simp only [containsSeq, Bool.or_eq_true] at h
      simp only [List.cons_append, containsSeq, Bool.or_eq_true]
      cases h with
      | inl hl => exact Or.inl (by simpa using leadsWith_append (a :: as) pat ys (by simpa using hl))
      | inr hr => exact Or.inr (ih hr)

theorem strContains_append_left (a b pat : String) (h : strContains a pat = true) :
    strContains (a ++ b) pat = true := by
  unfold strContains at h ⊢
  rw [String.data_append]
  exact containsSeq_append_left a.data b.data pat.data h

theorem isClientErrorMsg_404 (stx : String) :
    isClientErrorMsg ("OrderCloud API error: " ++ buildErrorMessage 404 stx none) = true := by
  have hmsg : "OrderCloud API error: " ++ buildErrorMessage 404 stx none
      = "OrderCloud API error: HTTP 404: " ++ stx := rfl
  rw [hmsg]
  unfold isClientErrorMsg
  have h4 : strContains ("OrderCloud API error: HTTP 404: " ++ stx) "404" = true :=
    strContains_append_left "OrderCloud API error: HTTP 404: " stx "404" (by decide)
  simp [h4]

theorem go_retry_last (d : Nat) (outcomes : Nat → AttemptOutcome) (a : Nat)
    (h : retryableFailure (outcomes a) = true) :
    makeRequestGo d outcomes a 0 = ⟨.error (errMsgOf (outcomes a)), 1, []⟩ := by
  cases ho : outcomes a with
  | success p => rw [ho] at h; simp [retryableFailure] at h
  | httpFailure st stx body => simp [makeRequestGo, ho]
  | thrown m => simp [makeRequestGo, ho]

theorem go_retry_step (d : Nat) (outcomes : Nat → AttemptOutcome) (a rem : Nat)
    (h : retryableFailure (outcomes a) = true) :
    makeRequestGo d outcomes a (rem + 1)
      = ⟨(makeRequestGo d outcomes (a + 1) rem).result,
         (makeRequestGo d outcomes (a + 1) rem).attempts + 1,
         d * 2 ^ a :: (makeRequestGo d outcomes (a + 1) rem).sleeps⟩ := by
  cases ho : outcomes a with
  | success p => rw [ho] at h; simp [retryableFailure] at h
  | httpFailure st stx body =>
      rw [ho] at h
      simp only [retryableFailure, Bool.not_eq_true'] at h
      simp [makeRequestGo, ho, h]
  | thrown m =>
      rw [ho] at h
      simp only [retryableFailure, Bool.not_eq_true'] at h
      simp [makeRequestGo, ho, h]

theorem go_client_error (d : Nat) (outcomes : Nat → AttemptOutcome) (a rem : Nat)
    (h1 : ∀ p, outcomes a ≠ .success p)
    (h2 : isClientErrorMsg (errMsgOf (outcomes a)) = true) :
    makeRequestGo d outcomes a rem = ⟨.error (errMsgOf (outcomes a)), 1, []⟩ := by
  cases rem with
  | zero =>
      cases ho : outcomes a with
      | success p => exact absurd ho (h1 p)
      | httpFailure st stx body => simp [makeRequestGo, ho]
      | thrown m => simp [makeRequestGo, ho]
  | succ n =>
      cases ho : outcomes a with
      | success p => exact absurd ho (h1 p)
      | httpFailure st stx body =>
          rw [ho] at h2
          simp [makeRequestGo, ho, h2]
      | thrown m =>
          rw [ho] at h2
          simp [makeRequestGo, ho, h2]

theorem go_attempts_le (d : Nat) (outcomes : Nat → AttemptOutcome) :
    ∀ (rem a : Nat), (makeRequestGo d outcomes a rem).attempts ≤ rem + 1 := by
  intro rem
  induction rem with
  | zero =>
      intro a
      cases ho : outcomes a <;> simp [makeRequestGo, ho]
  | succ n ih =>
      intro a
      cases ho : outcomes a with
      | success p => simp [makeRequestGo, ho]
      | httpFailure st stx body =>
          by_cases hc : isClientErrorMsg (errMsgOf (.httpFailure st stx body)) = true
          · simp [makeRequestGo, ho, hc]
          · simp only [Bool.not_eq_true] at hc
            simp [makeRequestGo, ho, hc]
            have := ih (a + 1)
            omega
      | thrown m =>
          by_cases hc : isClientErrorMsg (errMsgOf (.thrown m)) = true
          · simp [makeRequestGo, ho, hc]
          · simp only [Bool.not_eq_true] at hc
            simp [makeRequestGo, ho, hc]
            have := ih (a + 1)
            omega

/-! ## Claim C1 -/

/-- C1 (counterexample): the claim "setCredentials(c) ... clears any cached
Token, so that the next authenticate() call cannot take the cached fast
path" is false. In the concrete state `s0`, which caches a token valid
until t = 1000000 ms, `setCredentials` with new credentials leaves the
cached token and expiry in place, and the very next `authenticate` at
t = 0 takes the fast path: it returns the old token `"oldTok"` with zero
network calls, never using the new credentials. -/
theorem C1_counterexample :
    (setCredentials s0 cred1).token = some tok0
    ∧ (setCredentials s0 cred1).tokenExpiry = some 1000000
    ∧ authenticate (setCredentials s0 cred1) 0 (.ok resp1)
        = ⟨.ok "oldTok", setCredentials s0 cred1, 0⟩ :=
  ⟨rfl, rfl, rfl⟩

/-- C1 (amended): for every credential value `c` and every authority state,
`setCredentials(c)` replaces the stored credentials and performs no network
call, but does NOT clear any cached Token: the token and expiry slots are
unchanged, so a subsequent `authenticate()` whose cached Token is still
valid takes the cached fast path and returns the OLD token with no network
exchange instead of re-authenticating with the new credentials. -/
theorem C1_amended :
    (∀ (s : AuthState) (c : OrderCloudCredentials),
        (setCredentials s c).credentials = some c
        ∧ (setCredentials s c).token = s.token
        ∧ (setCredentials s c).tokenExpiry = s.tokenExpiry)
    ∧ (∀ (s : AuthState) (c : OrderCloudCredentials) (tok : OrderCloudToken)
        (e now : Int) (net : TokenHttpResult),
        s.token = some tok → s.tokenExpiry = some e → now < e →
        authenticate (setCredentials s c) now net
          = ⟨.ok tok.access_token, setCredentials s c, 0⟩) := by
  constructor
  · intro s c
    exact ⟨rfl, rfl, rfl⟩
  · intro s c tok e now net ht he hlt
    exact authenticate_fast_path (setCredentials s c) c tok e now net rfl ht he hlt

/-- C1 (witness for the amended theorem) at the concrete state `s0`. -/
theorem C1_witness :
    authenticate (setCredentials s0 cred1) 0 (.ok resp1)
      = ⟨.ok tok0.access_token, setCredentials s0 cred1, 0⟩ :=
  C1_amended.2 s0 cred1 tok0 1000000 0 (.ok resp1) rfl rfl (by decide)

/-! ## Claim C2 -/

/-- C2: when credentials are set, a Token is cached, and the current time
is strictly before the token's expiry instant, `authenticate()` returns the
cached `access_token`, issues zero network calls and leaves the whole
state (cached Token and credentials included) unchanged — for any network
oracle, so no network exchange can influence the outcome; and when
credentials were never set, `authenticate()` fails with the configuration
error message, again with zero network calls, whatever the rest of the
state. -/
theorem C2_theorem :
    (∀ (s : AuthState) (c : OrderCloudCredentials) (tok : OrderCloudToken)
        (e now : Int) (net : TokenHttpResult),
        s.credentials = some c → s.token = some tok → s.tokenExpiry = some e → now < e →
        authenticate s now net = ⟨.ok tok.access_token, s, 0⟩)
    ∧ (∀ (s : AuthState) (now : Int) (net : TokenHttpResult),
        s.credentials = none →
        authenticate s now net
          = ⟨.error "Credentials not set. Call setCredentials() first.", s, 0⟩) := by
  constructor
  · exact fun s c tok e now net hc ht he hlt =>
      authenticate_fast_path s c tok e now net hc ht he hlt
  · intro s now net hc
    unfold authenticate
    rw [hc]

/-- C2 (witness): both branches at concrete inputs — the fast path on `s0`
at t = 0 and the configuration failure on `sNoCred`. -/
theorem C2_witness :
    authenticate s0 0 (.transportError "dns down") = ⟨.ok tok0.access_token, s0, 0⟩
    ∧ authenticate sNoCred 0 (.ok resp1)
        = ⟨.error "Credentials not set. Call setCredentials() first.", sNoCred, 0⟩ :=
  ⟨C2_theorem.1 s0 cred0 tok0 1000000 0 (.transportError "dns down") rfl rfl rfl (by decide),
   C2_theorem.2 sNoCred 0 (.ok resp1) rfl⟩

/-! ## Claim C9 -/

/-- C9: `clearAuth()` is idempotent — a second consecutive call is a no-op
— and it never touches credentials; moreover, in any state whose
credentials are set, an `authenticate()` following `clearAuth()` cannot
take the cached fast path: it performs exactly one network exchange, and
on a successful exchange returns the freshly issued token. -/
theorem C9_theorem :
    (∀ s : AuthState, clearAuth (clearAuth s) = clearAuth s)
    ∧ (∀ s : AuthState, (clearAuth s).credentials = s.credentials)
    ∧ (∀ (s : AuthState) (c : OrderCloudCredentials) (now : Int) (net : TokenHttpResult),
        s.credentials = some c → (authenticate (clearAuth s) now net).networkCalls = 1)
    ∧ (∀ (s : AuthState) (c : OrderCloudCredentials) (now : Int)
        (resp : OrderCloudAuthResponse),
        s.credentials = some c →
        (authenticate (clearAuth s) now (.ok resp)).result = .ok resp.access_token) := by
  refine ⟨fun s => rfl, fun s => rfl, ?_, ?_⟩
  · intro s c now net hc
    have hfresh : tokenFresh (clearAuth s) now = false := rfl
    rw [authenticate_of_not_fresh (clearAuth s) c now net hc hfresh]
    exact doTokenExchange_networkCalls (clearAuth s) now net
  · intro s c now resp hc
    have hfresh : tokenFresh (clearAuth s) now = false := rfl
    rw [authenticate_of_not_fresh (clearAuth s) c now (.ok resp) hc hfresh]
    rfl

/-- C9 (witness): the double clear, the credential preservation, and the
forced fresh exchange, all at the concrete state `s0`. -/
theorem C9_witness :
    clearAuth (clearAuth s0) = clearAuth s0
    ∧ (clearAuth s0).credentials = s0.credentials
    ∧ (authenticate (clearAuth s0) 0 (.ok resp1)).networkCalls = 1
    ∧ (authenticate (clearAuth s0) 0 (.ok resp1)).result = .ok "newTok" :=
  ⟨C9_theorem.1 s0, C9_theorem.2.1 s0,
   C9_theorem.2.2.1 s0 cred0 0 (.ok resp1) rfl,
   C9_theorem.2.2.2 s0 cred0 0 resp1 rfl⟩

/-! ## Claim C5 -/

/-- C5: after every successful token exchange at time `now` the cached
expiry is `now + (expires_in - 300) * 1000` ms, i.e. issuance time plus
`expires_in − 300` seconds, and validity is the strict comparison
`now < expiryInstant`; hence for `expires_in = 600` the token is still
valid 299 s after issuance and invalid from exactly 300 s after issuance,
as reported both by `isAuthenticated()` and by `authenticate()`'s own
freshness check (cached fast path with zero network calls at 299 s, a new
network exchange at 300 s). -/
theorem C5_theorem :
    (∀ (s : AuthState) (c : OrderCloudCredentials) (now : Int)
        (resp : OrderCloudAuthResponse),
        s.credentials = some c → tokenFresh s now = false →
        (authenticate s now (.ok resp)).state.tokenExpiry
          = some (now + (resp.expires_in - 300) * 1000))
    ∧ (∀ (s : AuthState) (c : OrderCloudCredentials) (now : Int)
        (resp : OrderCloudAuthResponse) (net : TokenHttpResult),
        s.credentials = some c → tokenFresh s now = false → resp.expires_in = 600 →
        isAuthenticated (authenticate s now (.ok resp)).state (now + 299 * 1000) = true
        ∧ isAuthenticated (authenticate s now (.ok resp)).state (now + 300 * 1000) = false
        ∧ (authenticate (authenticate s now (.ok resp)).state (now + 299 * 1000) net).networkCalls = 0
        ∧ (authenticate (authenticate s now (.ok resp)).state (now + 299 * 1000) net).result
            = .ok resp.access_token
        ∧ (authenticate (authenticate s now (.ok resp)).state (now + 300 * 1000) net).networkCalls = 1) := by
  have hstate : ∀ (s : AuthState) (c : OrderCloudCredentials) (now : Int)
      (resp : OrderCloudAuthResponse),
      s.credentials = some c → tokenFresh s now = false →
      (authenticate s now (.ok resp)).state
        = { s with
            token := some ⟨resp.access_token, resp.token_type, resp.expires_in, resp.refresh_token⟩,
            tokenExpiry := some (now + (resp.expires_in - 300) * 1000) } := by
    intro s c now resp hc hf
    rw [authenticate_of_not_fresh s c now (.ok resp) hc hf]
    rfl
  constructor
  · intro s c now resp hc hf
    rw [hstate s c now resp hc hf]
  · intro s c now resp net hc hf h600
    rw [hstate s c now resp hc hf]
    have hexp : now + (resp.expires_in - 300) * 1000 = now + 300000 := by
      rw [h600]; ring
    refine ⟨?_, ?_, ?_, ?_, ?_⟩
    · simp [isAuthenticated, hexp]
    · simp [isAuthenticated, hexp]
    · simp only [authenticate, hc, hexp]
      have : now + 299 * 1000 < now + 300000 := by omega
      simp [this]
    · simp only [authenticate, hc, hexp]
      have : now + 299 * 1000 < now + 300000 := by omega
      simp [this]
    · simp only [authenticate, hc, hexp]
      have : ¬ (now + 300 * 1000 < now + 300000) := by omega
      simp [this, doTokenExchange_networkCalls]

/-- C5 (witness): a fresh exchange on `sCred` at t = 0 with
`expires_in = 600` gives expiry 300000 ms; the token is valid at 299000 ms
and invalid at 300000 ms by both checks. -/
theorem C5_witness :
    (authenticate sCred 0 (.ok resp600)).state.tokenExpiry = some ((0 : Int) + (600 - 300) * 1000)
    ∧ isAuthenticated (authenticate sCred 0 (.ok resp600)).state ((0 : Int) + 299 * 1000) = true
    ∧ isAuthenticated (authenticate sCred 0 (.ok resp600)).state ((0 : Int) + 300 * 1000) = false
    ∧ (authenticate (authenticate sCred 0 (.ok resp600)).state ((0 : Int) + 299 * 1000)
        (.transportError "offline")).networkCalls = 0
    ∧ (authenticate (authenticate sCred 0 (.ok resp600)).state ((0 : Int) + 300 * 1000)
        (.transportError "offline")).networkCalls = 1 :=
  ⟨C5_theorem.1 sCred cred0 0 resp600 rfl rfl,
   (C5_theorem.2 sCred cred0 0 resp600 (.transportError "offline") rfl rfl rfl).1,
   (C5_theorem.2 sCred cred0 0 resp600 (.transportError "offline") rfl rfl rfl).2.1,
   (C5_theorem.2 sCred cred0 0 resp600 (.transportError "offline") rfl rfl rfl).2.2.1,
   (C5_theorem.2 sCred cred0 0 resp600 (.transportError "offline") rfl rfl rfl).2.2.2.2⟩

/-! ## Claim C7 -/

/-- C7 (counterexample): the claim that the authentication failure message
carries "a best-effort parsed error message taken from the response body's
JSON error_description or Message field" is false. For a non-ok token
response whose body is the JSON text with
`error_description = "bad\ncreds"` (note the embedded newline escape: the
parsed field value differs from the raw text), the code (part_000 lines
61-64) embeds the raw body verbatim and performs no JSON parsing: the
thrown message does not contain the parsed field value that
`specAuthMsgPart` — the spec's prescription — selects. -/
theorem C7_counterexample :
    (authenticate sCred 0
        (.httpError 401 "\x7b\"error_description\":\"bad\\ncreds\"\x7d")).result
      = .error ("Failed to authenticate with OrderCloud: Authentication failed: 401 \x7b\"error_description\":\"bad\\ncreds\"\x7d")
    ∧ specAuthMsgPart (some "bad\ncreds") none
        "\x7b\"error_description\":\"bad\\ncreds\"\x7d" "Unauthorized" = "bad\ncreds"
    ∧ strContains
        "Failed to authenticate with OrderCloud: Authentication failed: 401 \x7b\"error_description\":\"bad\\ncreds\"\x7d"
        "bad\ncreds" = false :=
  ⟨rfl, rfl, by decide⟩

/-- C7 (amended): for every non-success HTTP response from the token
endpoint (credentials set, no fresh cached token), `authenticate()` fails
with an error whose message carries the HTTP status code and the RAW
response body text — the body is never JSON-parsed for
`error_description`/`Message`, and the status text is never used; and
every transport-level exception during the exchange is re-raised as an
authentication error with the underlying message preserved verbatim. -/
theorem C7_amended :
    (∀ (s : AuthState) (c : OrderCloudCredentials) (now : Int) (status : Nat) (body : String),
        s.credentials = some c → tokenFresh s now = false →
        (authenticate s now (.httpError status body)).result
          = .error ("Failed to authenticate with OrderCloud: Authentication failed: "
                    ++ toString status ++ " " ++ body))
    ∧ (∀ (s : AuthState) (c : OrderCloudCredentials) (now : Int) (msg : String),
        s.credentials = some c → tokenFresh s now = false →
        (authenticate s now (.transportError msg)).result
          = .error ("Failed to authenticate with OrderCloud: " ++ msg)) := by
  constructor
  · intro s c now status body hc hf
    rw [authenticate_of_not_fresh s c now (.httpError status body) hc hf]
    rfl
  · intro s c now msg hc hf
    rw [authenticate_of_not_fresh s c now (.transportError msg) hc hf]
    rfl

/-- C7 (witness for the amended theorem): both failure paths on `sCred`. -/
theorem C7_witness :
    (authenticate sCred 0 (.httpError 500 "oops")).result
      = .error ("Failed to authenticate with OrderCloud: Authentication failed: "
                ++ toString 500 ++ " " ++ "oops")
    ∧ (authenticate sCred 0 (.transportError "socket hang up")).result
        = .error ("Failed to authenticate with OrderCloud: " ++ "socket hang up") :=
  ⟨C7_amended.1 sCred cred0 0 500 "oops" rfl rfl,
   C7_amended.2 sCred cred0 0 "socket hang up" rfl rfl⟩

/-! ## Claim C3 -/

/-- C3: when every attempt fails with a retryable (non-client-classified)
error, `makeRequest` with `retryAttempts = 3` and `retryDelay = 1000`
performs exactly 4 HTTP attempts, sleeping 1000, 2000 and 4000 ms
(`retryDelay * 2 ^ attempt`) between consecutive attempts, and throws the
error captured on the last attempt; and for every configuration and every
outcome sequence the loop performs at most `retryAttempts + 1` attempts. -/
theorem C3_theorem :
    (∀ outcomes : Nat → AttemptOutcome,
        (∀ k, k ≤ 3 → retryableFailure (outcomes k) = true) →
        (makeRequest 3 1000 outcomes).result = .error (errMsgOf (outcomes 3))
        ∧ (makeRequest 3 1000 outcomes).attempts = 4
        ∧ (makeRequest 3 1000 outcomes).sleeps = [1000, 2000, 4000])
    ∧ (∀ (r d : Nat) (outcomes : Nat → AttemptOutcome),
        (makeRequest r d outcomes).attempts ≤ r + 1) := by
  constructor
  · intro outcomes h
    have t3 : makeRequestGo 1000 outcomes 3 0 = ⟨.error (errMsgOf (outcomes 3)), 1, []⟩ :=
      go_retry_last 1000 outcomes 3 (h 3 (by omega))
    have t2 : makeRequestGo 1000 outcomes 2 1 = ⟨.error (errMsgOf (outcomes 3)), 2, [4000]⟩ := by
      have hstep := go_retry_step 1000 outcomes 2 0 (h 2 (by omega))
      norm_num at hstep
      rw [t3] at hstep
      simpa using hstep
    have t1 : makeRequestGo 1000 outcomes 1 2
        = ⟨.error (errMsgOf (outcomes 3)), 3, [2000, 4000]⟩ := by
      have hstep := go_retry_step 1000 outcomes 1 1 (h 1 (by omega))
      norm_num at hstep
      rw [t2] at hstep
      simpa using hstep
    have t0 : makeRequestGo 1000 outcomes 0 3
        = ⟨.error (errMsgOf (outcomes 3)), 4, [1000, 2000, 4000]⟩ := by
      have hstep := go_retry_step 1000 outcomes 0 2 (h 0 (by omega))
      norm_num at hstep
      rw [t1] at hstep
      simpa using hstep
    have hmr : makeRequest 3 1000 outcomes = makeRequestGo 1000 outcomes 0 3 := rfl
    rw [hmr, t0]
    exact ⟨rfl, rfl, rfl⟩
  · intro r d outcomes
    exact go_attempts_le d outcomes r 0

/-- C3 (witness): a resource call that always returns HTTP 500 with an
unparseable body: 4 attempts, sleeps 1000, 2000, 4000 ms, and the HTTP 500
error thrown at the end. -/
theorem C3_witness :
    (makeRequest 3 1000 (fun _ => .httpFailure 500 "Internal Server Error" none)).result
      = .error "OrderCloud API error: HTTP 500: Internal Server Error"
    ∧ (makeRequest 3 1000 (fun _ => .httpFailure 500 "Internal Server Error" none)).attempts = 4
    ∧ (makeRequest 3 1000 (fun _ => .httpFailure 500 "Internal Server Error" none)).sleeps
        = [1000, 2000, 4000] :=
  C3_theorem.1 (fun _ => .httpFailure 500 "Internal Server Error" none)
    (fun _ _ =>
      (by decide : retryableFailure (.httpFailure 500 "Internal Server Error" none) = true))

/-! ## Claim C4 -/

/-- C4: whenever the message captured for a failed attempt contains one of
the substrings "400", "401", "403", "404", the error is rethrown at once
and the loop stops after that single attempt with no backoff sleep — in
particular an HTTP 404 response (default-built message) stops after
exactly 1 attempt; and the classification reads only the message text:
even a pre-response exception (`thrown`), which has no structured status
at all, stops the loop when its text matches. -/
theorem C4_theorem :
    (∀ (r d : Nat) (outcomes : Nat → AttemptOutcome),
        (∀ p, outcomes 0 ≠ .success p) →
        isClientErrorMsg (errMsgOf (outcomes 0)) = true →
        makeRequest r d outcomes = ⟨.error (errMsgOf (outcomes 0)), 1, []⟩)
    ∧ (∀ (r d : Nat) (stx : String) (outcomes : Nat → AttemptOutcome),
        outcomes 0 = .httpFailure 404 stx none →
        makeRequest r d outcomes
          = ⟨.error ("OrderCloud API error: " ++ buildErrorMessage 404 stx none), 1, []⟩)
    ∧ (∀ (r d : Nat) (m : String) (outcomes : Nat → AttemptOutcome),
        outcomes 0 = .thrown m → isClientErrorMsg m = true →
        makeRequest r d outcomes = ⟨.error m, 1, []⟩) := by
  have h1 : ∀ (r d : Nat) (outcomes : Nat → AttemptOutcome),
      (∀ p, outcomes 0 ≠ .success p) → isClientErrorMsg (errMsgOf (outcomes 0)) = true →
      makeRequest r d outcomes = ⟨.error (errMsgOf (outcomes 0)), 1, []⟩ := by
    intro r d outcomes hs hcl
    unfold makeRequest
    exact go_client_error d outcomes 0 r hs hcl
  refine ⟨h1, ?_, ?_⟩
  · intro r d stx outcomes ho
    have hcl : isClientErrorMsg (errMsgOf (outcomes 0)) = true := by
      rw [ho]
      exact isClientErrorMsg_404 stx
    have hres := h1 r d outcomes
      (fun p hp => by rw [ho] at hp; exact AttemptOutcome.noConfusion hp) hcl
    rw [hres, ho]
    rfl
  · intro r d m outcomes ho hm
    have hcl : isClientErrorMsg (errMsgOf (outcomes 0)) = true := by rw [ho]; exact hm
    have hres := h1 r d outcomes
      (fun p hp => by rw [ho] at hp; exact AttemptOutcome.noConfusion hp) hcl
    rw [hres, ho]
    rfl

/-- C4 (witness): an HTTP 404 with unparseable body stops after one
attempt with no sleep; so does a pre-response exception whose message text
happens to contain "404". -/
theorem C4_witness :
    makeRequest 3 1000 (fun _ => .httpFailure 404 "Not Found" none)
      = ⟨.error "OrderCloud API error: HTTP 404: Not Found", 1, []⟩
    ∧ makeRequest 3 1000 (fun _ => .thrown "getaddrinfo failed for host 404.example")
        = ⟨.error "getaddrinfo failed for host 404.example", 1, []⟩ :=
  ⟨C4_theorem.2.1 3 1000 "Not Found" (fun _ => .httpFailure 404 "Not Found" none) rfl,
   C4_theorem.2.2 3 1000 "getaddrinfo failed for host 404.example"
     (fun _ => .thrown "getaddrinfo failed for host 404.example") rfl (by decide)⟩

/-! ## Claim C6 -/

/-- C6 (counterexample): for the scenario body
`Errors = [{ErrorCode: "InvalidField", Message: "Name required"}]` the
error thrown by `makeRequest` has message
`"OrderCloud API error: InvalidField: Name required"` — the code
(part_001 line 190) prefixes the built message with
`"OrderCloud API error: "` — so the claim that the thrown message is
exactly `"InvalidField: Name required"` is false. -/
theorem C6_counterexample :
    (makeRequest 3 1000 c6Outcomes).result
      = .error "OrderCloud API error: InvalidField: Name required"
    ∧ (makeRequest 3 1000 c6Outcomes).result ≠ .error "InvalidField: Name required" := by
  have h : (makeRequest 3 1000 c6Outcomes).result
      = .error "OrderCloud API error: InvalidField: Name required" := rfl
  refine ⟨h, ?_⟩
  intro hcontra
  have h3 := h.symm.trans hcontra
  injection h3 with h4
  exact absurd h4 (by decide)

/-- C6 (amended): the thrown message for the scenario body equals
`"OrderCloud API error: InvalidField: Name required"`; in general the
message built from a failed response is: the `Errors` array entries joined
as `"<ErrorCode>: <Message>"` with `", "` when an `Errors` array is
present, else a non-empty top-level `Message` field, else
`"HTTP <status>: <statusText>"` — and the thrown error prefixes it with
`"OrderCloud API error: "`. -/
theorem C6_amended :
    (makeRequest 3 1000 c6Outcomes).result
      = .error "OrderCloud API error: InvalidField: Name required"
    ∧ (∀ (st : Nat) (stx : String) (errs : List OrderCloudApiError) (m : Option String),
        buildErrorMessage st stx (some ⟨some errs, m⟩)
          = String.intercalate ", " (errs.map (fun e => e.ErrorCode ++ ": " ++ e.Message)))
    ∧ (∀ (st : Nat) (stx : String) (m : String), m ≠ "" →
        buildErrorMessage st stx (some ⟨none, some m⟩) = m)
    ∧ (∀ (st : Nat) (stx : String),
        buildErrorMessage st stx none = "HTTP " ++ toString st ++ ": " ++ stx)
    ∧ (∀ (st : Nat) (stx : String) (body : Option ParsedErrorBody),
        errMsgOf (.httpFailure st stx body)
          = "OrderCloud API error: " ++ buildErrorMessage st stx body) := by
  refine ⟨rfl, fun st stx errs m => rfl, ?_, fun st stx => rfl, fun st stx body => rfl⟩
  intro st stx m hm
  simp [buildErrorMessage, hm]

/-- C6 (witness for the amended theorem): the non-empty `Message`-field
fallback at a concrete body. -/
theorem C6_witness :
    buildErrorMessage 400 "Bad Request" (some ⟨none, some "Boom"⟩) = "Boom" :=
  C6_amended.2.2.1 400 "Bad Request" "Boom" (by decide)

/-! ## Claim C8 -/

/-- C8: after any successful `authenticate()` on the composite client,
every resource facade wired at construction (and the auth client itself)
holds exactly the new access token, whatever each facade held before — so
any two facades observe the same token and no facade retains a stale
copy. -/
theorem C8_theorem :
    ∀ (f : Facades) (tok : String),
      (compositeAuthenticate f (.ok tok)).1 = .ok tok
      ∧ (compositeAuthenticate f (.ok tok)).2.auth = some tok
      ∧ (compositeAuthenticate f (.ok tok)).2.catalogs = some tok
      ∧ (compositeAuthenticate f (.ok tok)).2.products = some tok
      ∧ (compositeAuthenticate f (.ok tok)).2.categories = some tok
      ∧ (compositeAuthenticate f (.ok tok)).2.promotions = some tok
      ∧ (compositeAuthenticate f (.ok tok)).2.buyers = some tok
      ∧ (compositeAuthenticate f (.ok tok)).2.suppliers = some tok
      ∧ (compositeAuthenticate f (.ok tok)).2.priceSchedules = some tok
      ∧ (compositeAuthenticate f (.ok tok)).2.addresses = some tok :=
  fun _f _tok => ⟨rfl, rfl, rfl, rfl, rfl, rfl, rfl, rfl, rfl, rfl⟩

/-! ## Claim C10 -/

/-- C10: `ensureAuthenticated` raises its error exactly when the
access-token slot is not a truthy (non-null, non-empty) string, and it
consults nothing else: for any non-empty token string the guard passes
regardless of when the token was issued — even when the current time is
past `issuedAt + expires_in`, the stale bearer token passes the guard, so
every guarded resource operation proceeds rather than failing or
re-authenticating. -/
theorem C10_theorem :
    (∀ tok : Option String,
        (ensureAuthenticated tok
          = .error "Not authenticated. Please call authenticate() first.")
        ↔ jsTruthy tok = false)
    ∧ (∀ (t : String) (issuedAt expiresIn now : Int),
        t ≠ "" → issuedAt + expiresIn * 1000 ≤ now →
        ensureAuthenticated (some t) = .ok ()) := by
  constructor
  · intro tok
    unfold ensureAuthenticated
    cases htr : jsTruthy tok <;> simp
  · intro t issuedAt expiresIn now ht hstale
    have htr : jsTruthy (some t) = true := by simp [jsTruthy, ht]
    unfold ensureAuthenticated
    simp [htr]

/-- C10 (witness): a token issued at t = 0 with `expires_in = 600` s still
passes the guard at t = 1000000000 ms, and the guard fails on an absent
token. -/
theorem C10_witness :
    ensureAuthenticated (some "staleTok") = .ok ()
    ∧ ensureAuthenticated none
        = .error "Not authenticated. Please call authenticate() first." :=
  ⟨C10_theorem.2 "staleTok" 0 600 1000000000 (by decide) (by decide),
   (C10_theorem.1 none).mpr rfl⟩

end OrderCloudMCP
